import Mathlib

/-!
Verification of the project/visit record lifecycle and field-normalization
layer of the ControlDeProyectos repository.

The JavaScript/TypeScript sources are shallowly embedded: JS runtime values
become the inductive `JVal`, JS numbers become `JNum` (NaN / ±Infinity / a
finite rational), the Express handlers become pure functions over an explicit
list-of-rows store, and the zod schemas become `Except`-returning checks.
-/

/-- A JavaScript number: `NaN`, `±Infinity`, or a finite value modelled as a
rational.  Floating-point rounding is irrelevant to the normalizers verified
here (they only parse, compare to 0 and store), so finite values are kept
exact. -/
inductive JNum where
  | nan
  | inf (pos : Bool)
  | fin (q : ℚ)
deriving DecidableEq, Repr

/-- JS `Number.isFinite`. -/
def JNum.isFinite : JNum → Bool
  | .fin _ => true
  | _ => false

/-- A JavaScript runtime value, restricted to the types that can occur in the
JSON payloads handled by the server (JSON has no `undefined`, but a missing
object key reads as `undefined`, which is how absence is modelled). -/
inductive JVal where
  | null
  | undefined
  | str (s : String)
  | num (n : JNum)
  | bool (b : Bool)
deriving DecidableEq, Repr

/-- JS whitespace characters stripped by `String.prototype.trim` and by
`Number(string)` coercion (the common ASCII subset). -/
def isJsWs (c : Char) : Bool :=
  c = ' ' || c = '\t' || c = '\n' || c = '\r' || c = '\x0b' || c = '\x0c'

/-- Strip leading and trailing JS whitespace from a character list
(models `String.prototype.trim`). -/
def trimJsWs (l : List Char) : List Char :=
  ((l.dropWhile isJsWs).reverse.dropWhile isJsWs).reverse

/-- Value of a list of decimal digit characters. -/
def digitsToNat (l : List Char) : ℕ :=
  l.foldl (fun a c => 10 * a + (c.toNat - 48)) 0

/-- Signed decimal value `±(ip.fp) × 10^e` as a rational. -/
def decToRat (neg : Bool) (ip fp : List Char) (e : ℤ) : ℚ :=
  let n : ℚ := (digitsToNat (ip ++ fp) : ℚ)
  let q : ℚ := n / (10 : ℚ) ^ fp.length * (10 : ℚ) ^ e
  if neg then -q else q

/-- Consume an optional leading sign; returns (isNegative, rest). -/
def parseSign : List Char → Bool × List Char
  | '-' :: t => (true, t)
  | '+' :: t => (false, t)
  | l => (false, l)

/-- Syntactic outcome of scanning a JS decimal numeric literal: not a number,
an infinity, zero (empty/whitespace input), or a decimal with sign, integer
digits, fraction digits and decimal exponent.  The scan is kept separate from
the rational value so that it stays kernel-decidable. -/
inductive NumParse where
  | nanP
  | infP (pos : Bool)
  | zeroP
  | decP (neg : Bool) (ip fp : List Char) (e : ℤ)
deriving DecidableEq, Repr

/-- Scan a string as JS `Number(string)` does for decimal literals: trim
whitespace, empty means `0`, optional sign, `Infinity`, digits with optional
fraction and exponent; any leftover character means `NaN`. -/
def scanNumLiteral (s : String) : NumParse :=
  let l := trimJsWs s.data
  if l = [] then NumParse.zeroP
  else
    let sg := parseSign l
    let neg := sg.1
    let l1 := sg.2
    if l1 = "Infinity".data then NumParse.infP (!neg)
    else
      let ip := l1.takeWhile Char.isDigit
      let r1 := l1.dropWhile Char.isDigit
      let fpr : List Char × List Char :=
        match r1 with
        | '.' :: t => (t.takeWhile Char.isDigit, t.dropWhile Char.isDigit)
        | _ => ([], r1)
      let fp := fpr.1
      let r2 := fpr.2
      if ip = [] ∧ fp = [] then NumParse.nanP
      else
        match r2 with
        | [] => NumParse.decP neg ip fp 0
        | c :: t =>
          if c = 'e' ∨ c = 'E' then
            let esg := parseSign t
            let ed := esg.2.takeWhile Char.isDigit
            let r3 := esg.2.dropWhile Char.isDigit
            if ed = [] ∨ ¬ r3 = [] then NumParse.nanP
            else
              NumParse.decP neg ip fp
                (if esg.1 then -(digitsToNat ed : ℤ) else (digitsToNat ed : ℤ))
          else NumParse.nanP

/-- JS `Number(string)` coercion on decimal string literals.  Hex/octal/binary
literals (`0x…`) are outside the payloads the repository's normalizers receive
and are not modelled (they coerce to `NaN` here). -/
def jsStringToNumber (s : String) : JNum :=
  match scanNumLiteral s with
  | NumParse.nanP => JNum.nan
  | NumParse.infP p => JNum.inf p
  | NumParse.zeroP => JNum.fin 0
  | NumParse.decP neg ip fp e => JNum.fin (decToRat neg ip fp e)

/-- JS `Number(v)` coercion on the value types that occur in payloads. -/
def jsToNumber : JVal → JNum
  | .null => JNum.fin 0
  | .undefined => JNum.nan
  | .str s => jsStringToNumber s
  | .num n => n
  | .bool b => JNum.fin (if b then 1 else 0)

/-- JS truthiness test, negated: the values for which `!v` holds. -/
def jsFalsy : JVal → Bool
  | .null => true
  | .undefined => true
  | .str s => s.data.isEmpty
  | .num JNum.nan => true
  | .num (JNum.fin q) => decide (q = 0)
  | .num _ => false
  | .bool b => !b

/-- JS nullish test: the values the `??` operator skips over. -/
def jsNullish : JVal → Bool
  | .null => true
  | .undefined => true
  | _ => false

/-- JS nullish-coalescing operator `a ?? b`. -/
def nullishOr (a b : JVal) : JVal :=
  if jsNullish a then b else a

/-- Model of `toNumOrNull` (src/server.mjs lines 62–66): `null`/`undefined`/`""`
map to SQL NULL (`none`); otherwise the `Number` coercion is kept only when
finite, else NULL. -/
def toNumOrNull (v : JVal) : Option JNum :=
  if v = JVal.null ∨ v = JVal.undefined ∨ v = JVal.str "" then none
  else
    let n := jsToNumber v
    if n.isFinite then some n else none

/-- Model of JS `String.prototype.includes` for a single character. -/
def containsChar (s : String) (c : Char) : Bool :=
  decide (c ∈ s.data)

/-- Model of JS `String.prototype.split(sep)` for a one-character separator,
on character lists. -/
def splitChar (c : Char) : List Char → List (List Char)
  | [] => [[]]
  | a :: t =>
    if a = c then [] :: splitChar c t
    else
      match splitChar c t with
      | [] => [[a]]
      | h :: t2 => (a :: h) :: t2

/-- Model of JS `String.prototype.padStart(2, "0")`. -/
def padStart2 (s : String) : String :=
  if s.length ≥ 2 then s else String.mk (List.replicate (2 - s.length) '0') ++ s

/-- Model of `toIsoDateOrNull` (src/server.mjs lines 67–74): falsy input maps
to null; a string containing `/` is destructured `[d, m, y] = v.split("/")`
and rebuilt as `y-m-d` with `padStart(2, "0")` on day and month (a missing
third part renders as the string `"undefined"`, as JS template literals do);
anything else passes through unchanged. -/
def toIsoDateOrNull (v : JVal) : JVal :=
  if jsFalsy v then JVal.null
  else
    match v with
    | .str s =>
      if containsChar s '/' then
        let parts := splitChar '/' s.data
        let d := String.mk (parts.getD 0 [])
        let m := String.mk (parts.getD 1 [])
        let y := match parts.get? 2 with
                 | some l => String.mk l
                 | none => "undefined"
        JVal.str (y ++ "-" ++ padStart2 m ++ "-" ++ padStart2 d)
      else JVal.str s
    | w => w

/-- Model of the comma-tolerant number conversion in the visit edit dialog
(src/src/components/VisitCard.tsx `handleUpdate`):
`Number(String(x).replace(",", "."))` — JS `replace` with a string pattern
replaces only the first occurrence. -/
def replaceFirstComma : List Char → List Char
  | [] => []
  | c :: t => if c = ',' then '.' :: t else c :: replaceFirstComma t

/-- The full frontend conversion `Number(String(x).replace(",", "."))` applied
to a string input. -/
def visitCardToNumber (s : String) : JNum :=
  jsStringToNumber (String.mk (replaceFirstComma s.data))

/-- Model of the `zNumberOrDefault(def)` preprocessing (src/unnamed/part_001
lines 124–138): `null`/`undefined`/`""`/`"nan"`/unparseable/non-finite all fall
back to the default; finite parses are kept.  The string is trimmed and
lower-cased before `Number` coercion, as in the source. -/
def zNumberOrDefault (d : ℚ) (v : JVal) : JNum :=
  match v with
  | .null => JNum.fin d
  | .undefined => JNum.fin d
  | .str s =>
    let s2 := (trimJsWs s.data).map Char.toLower
    if s2 = [] ∨ s2 = "nan".data then JNum.fin d
    else
      match jsStringToNumber (String.mk s2) with
      | JNum.fin q => JNum.fin q
      | _ => JNum.fin d
  | .num n =>
    match n with
    | JNum.fin q => JNum.fin q
    | _ => JNum.fin d
  | .bool _ => JNum.fin d

/-- The raw JSON body of a project create/update request, one field per alias
name read by `normalizeProjectPayload` or by the zod schemas; a missing key
reads as `undefined`. -/
structure RawPayload where
  nombre : JVal := JVal.undefined
  project_name : JVal := JVal.undefined
  numero_oportunidad : JVal := JVal.undefined
  numeroOportunidad : JVal := JVal.undefined
  opportunity_number : JVal := JVal.undefined
  pais : JVal := JVal.undefined
  country : JVal := JVal.undefined
  consultor : JVal := JVal.undefined
  consultant : JVal := JVal.undefined
  client_name : JVal := JVal.undefined
  cliente : JVal := JVal.undefined
  nombre_cliente : JVal := JVal.undefined
  nombreCliente : JVal := JVal.undefined
  pm : JVal := JVal.undefined
  pm_asignado : JVal := JVal.undefined
  pmAsignado : JVal := JVal.undefined
  planned_hours : JVal := JVal.undefined
  horas_planificadas : JVal := JVal.undefined
  horasPlanificadas : JVal := JVal.undefined
  executed_hours : JVal := JVal.undefined
  horas_ejecutadas : JVal := JVal.undefined
  horasEjecutadas : JVal := JVal.undefined
  hourly_rate : JVal := JVal.undefined
  valor_hora : JVal := JVal.undefined
  valorHora : JVal := JVal.undefined
  monto_oportunidad : JVal := JVal.undefined
  montoOportunidad : JVal := JVal.undefined
  monto : JVal := JVal.undefined
  start_date : JVal := JVal.undefined
  fecha_inicio : JVal := JVal.undefined
  fechaInicio : JVal := JVal.undefined
  end_date : JVal := JVal.undefined
  fecha_fin : JVal := JVal.undefined
  fechaFin : JVal := JVal.undefined
  terminado : JVal := JVal.undefined
  finalizado : JVal := JVal.undefined
  observaciones : JVal := JVal.undefined
  activo : JVal := JVal.undefined
deriving DecidableEq, Repr

/-- The canonical payload produced by `normalizeProjectPayload`
(src/server.mjs lines 61–129): text-like fields keep their JS value, numeric
fields go through `toNumOrNull`, date fields through `toIsoDateOrNull`. -/
structure NormPayload where
  nombre : JVal
  numero_oportunidad : JVal
  pais : JVal
  consultor : JVal
  client_name : JVal
  pm : JVal
  planned_hours : Option JNum
  executed_hours : Option JNum
  hourly_rate : Option JNum
  monto_oportunidad : Option JNum
  start_date : JVal
  end_date : JVal
  terminado : JVal
  observaciones : JVal
  activo : JVal
deriving DecidableEq, Repr

/-- Model of `normalizeProjectPayload` (src/server.mjs lines 61–129): each
logical field is resolved through its `??` alias chain exactly as written in
the source, then passed through the per-kind converter. -/
def normalizeProjectPayload (raw : RawPayload) : NormPayload where
  nombre := nullishOr raw.nombre (nullishOr raw.project_name JVal.null)
  numero_oportunidad :=
    nullishOr raw.numero_oportunidad
      (nullishOr raw.numeroOportunidad (nullishOr raw.opportunity_number JVal.null))
  pais := nullishOr raw.pais (nullishOr raw.country JVal.null)
  consultor := nullishOr raw.consultor (nullishOr raw.consultant JVal.null)
  client_name :=
    nullishOr raw.client_name
      (nullishOr raw.cliente
        (nullishOr raw.nombre_cliente (nullishOr raw.nombreCliente JVal.null)))
  pm := nullishOr raw.pm (nullishOr raw.pm_asignado (nullishOr raw.pmAsignado JVal.null))
  planned_hours :=
    toNumOrNull
      (nullishOr raw.planned_hours
        (nullishOr raw.horas_planificadas raw.horasPlanificadas))
  executed_hours :=
    toNumOrNull
      (nullishOr raw.executed_hours
        (nullishOr raw.horas_ejecutadas raw.horasEjecutadas))
  hourly_rate :=
    toNumOrNull (nullishOr raw.hourly_rate (nullishOr raw.valor_hora raw.valorHora))
  monto_oportunidad :=
    toNumOrNull
      (nullishOr raw.monto_oportunidad (nullishOr raw.montoOportunidad raw.monto))
  start_date :=
    toIsoDateOrNull (nullishOr raw.start_date (nullishOr raw.fecha_inicio raw.fechaInicio))
  end_date :=
    toIsoDateOrNull (nullishOr raw.end_date (nullishOr raw.fecha_fin raw.fechaFin))
  terminado := nullishOr raw.terminado (nullishOr raw.finalizado (JVal.bool false))
  observaciones := nullishOr raw.observaciones (JVal.str "")
  activo := match raw.activo with
            | JVal.bool b => JVal.bool b
            | _ => JVal.null

/-- A stored row of `public.projects`.  SQL NULL is `none`; NUMERIC columns
hold exact rationals; the two timestamps are abstract ticks (the server always
writes `NOW()`). -/
structure ProjectRow where
  id : String
  nombre : Option String := none
  numero_oportunidad : Option String := none
  pais : Option String := none
  consultor : Option String := none
  monto_oportunidad : Option ℚ := none
  client_name : Option String := none
  pm : Option String := none
  planned_hours : Option ℚ := none
  executed_hours : Option ℚ := none
  hourly_rate : Option ℚ := none
  start_date : Option String := none
  end_date : Option String := none
  terminado : Option Bool := none
  observaciones : Option String := none
  activo : Option Bool := none
  created_at : ℕ := 0
  updated_at : ℕ := 0
deriving DecidableEq, Repr

/-- SQL `COALESCE(a, b)` on two nullable values. -/
def sqlCoalesce {α : Type} (a b : Option α) : Option α :=
  match a with
  | some x => some x
  | none => b

/-- The pg parameter sent for a TEXT (or DATE) column: JS `null`/`undefined`
become SQL NULL, a string is passed through.  Payload values of other JS types
would be serialized by the driver but do not occur in the payloads modelled
here, so they are mapped to NULL. -/
def textParam : JVal → Option String
  | JVal.str s => some s
  | _ => none

/-- The pg parameter sent for a BOOLEAN column: JS booleans pass through,
`null`/`undefined` become SQL NULL; other JS types do not occur in the
modelled payloads. -/
def boolParam : JVal → Option Bool
  | JVal.bool b => some b
  | _ => none

/-- The pg parameter sent for a NUMERIC column, from a `toNumOrNull` result
(which is always SQL NULL or a finite number). -/
def numParam : Option JNum → Option ℚ
  | some (JNum.fin q) => some q
  | _ => none

/-- Model of the `PUT /api/projects/:id` statement of src/server.mjs (lines
325–373) applied to the matched row: every column is set to
`COALESCE($param, column)` and `updated_at = NOW()`.  The parameters are the
fields of `normalizeProjectPayload req.body`, with `p.observaciones ?? ""` and
`typeof p.activo === "boolean" ? p.activo : null` as in the source. -/
def putProjectServer (r : ProjectRow) (raw : RawPayload) (now : ℕ) : ProjectRow :=
  let p := normalizeProjectPayload raw
  { id := r.id
    nombre := sqlCoalesce (textParam p.nombre) r.nombre
    numero_oportunidad := sqlCoalesce (textParam p.numero_oportunidad) r.numero_oportunidad
    pais := sqlCoalesce (textParam p.pais) r.pais
    consultor := sqlCoalesce (textParam p.consultor) r.consultor
    monto_oportunidad := sqlCoalesce (numParam p.monto_oportunidad) r.monto_oportunidad
    client_name := sqlCoalesce (textParam p.client_name) r.client_name
    pm := sqlCoalesce (textParam p.pm) r.pm
    planned_hours := sqlCoalesce (numParam p.planned_hours) r.planned_hours
    executed_hours := sqlCoalesce (numParam p.executed_hours) r.executed_hours
    hourly_rate := sqlCoalesce (numParam p.hourly_rate) r.hourly_rate
    start_date := sqlCoalesce (textParam p.start_date) r.start_date
    end_date := sqlCoalesce (textParam p.end_date) r.end_date
    terminado := sqlCoalesce (boolParam p.terminado) r.terminado
    observaciones :=
      sqlCoalesce (textParam (nullishOr p.observaciones (JVal.str ""))) r.observaciones
    activo := sqlCoalesce (boolParam p.activo) r.activo
    created_at := r.created_at
    updated_at := now }

/-- Model of `GET /api/projects` of src/server.mjs (lines 224–269): only the
literal query value `active` triggers a filter, namely
`COALESCE(activo, true) = true AND COALESCE(terminado, false) = false`; every
other value of `status` — including an absent parameter and `archived` —
returns the whole table.  `ORDER BY created_at DESC` is not modelled, as the
claims about this endpoint concern membership only. -/
def listProjects (store : List ProjectRow) (status : Option String) : List ProjectRow :=
  if status = some "active" then
    store.filter (fun r => r.activo.getD true && !(r.terminado.getD false))
  else store

/-- Responses of the `DELETE /api/projects/:id` handler. -/
inductive DeleteResp where
  | ok
  | notFound
deriving DecidableEq, Repr

/-- Model of `DELETE /api/projects/:id` (src/unnamed/part_001 lines 454–463),
the endpoint `archiveProject` in src/src/lib/azureDb.ts calls: it runs
`DELETE FROM projects WHERE id = $1` — a physical delete with no
precondition — and answers 404 only when no row matched. -/
def deleteProjectHandler (store : List ProjectRow) (id : String) :
    DeleteResp × List ProjectRow :=
  let remaining := store.filter (fun r => r.id ≠ id)
  if remaining.length = store.length then (DeleteResp.notFound, store)
  else (DeleteResp.ok, remaining)

/-- Validation issues are reported by the failing field's name (the path of
the zod issue), which is what "names the failing field" means for callers. -/
abbrev Issues := List String

/-- Model of `z.string().min(1, msg)` as used for the required create fields
(src/unnamed/part_001 lines 141–144): a missing key or non-string is an
invalid-type issue, the empty string fails `min(1)`; both carry the field's
path. -/
def zReqStrIssues (field : String) : JVal → Issues
  | JVal.str s => if s.data.isEmpty then [field] else []
  | _ => [field]

/-- The value extracted for a required string field once it has no issues. -/
def zReqStrVal : JVal → String
  | JVal.str s => s
  | _ => ""

/-- Model of `zNumberOrDefault(0).refine(n >= 0)` for `monto_oportunidad`
(src/unnamed/part_001 lines 146–149): the preprocessing never fails, so the
only possible issue is a negative value. -/
def zMontoIssues (field : String) (v : JVal) : Issues :=
  match zNumberOrDefault 0 v with
  | JNum.fin q => if q < 0 then [field] else []
  | _ => [field]

/-- The value extracted for `monto_oportunidad` (always finite). -/
def zMontoVal (v : JVal) : ℚ :=
  match zNumberOrDefault 0 v with
  | JNum.fin q => q
  | _ => 0

/-- Model of `zStrOpt` (src/unnamed/part_001 lines 94–96):
`preprocess(trim-empty to null, z.string().nullable()).optional()`.  The outer
`some` marks the key as present in the parsed object; absent keys stay absent
because `ZodOptional` short-circuits on `undefined`. -/
def zStrOptParse (field : String) : JVal → Except Issues (Option (Option String))
  | JVal.undefined => Except.ok none
  | JVal.null => Except.ok (some none)
  | JVal.str s =>
    if trimJsWs s.data = [] then Except.ok (some none) else Except.ok (some (some s))
  | _ => Except.error [field]

/-- Model of `zNumNullable` (src/unnamed/part_001 lines 99–105):
`preprocess(..., z.number().nullable())` with NO `.optional()` — the
preprocessing turns a missing key into `null`, so the key is always present in
the parsed object (zod keeps a key whose parsed value is not `undefined`).
An unparseable value becomes `NaN`, which `z.number()` rejects. -/
def zNumNullParse (field : String) : JVal → Except Issues (Option ℚ)
  | JVal.null => Except.ok none
  | JVal.undefined => Except.ok none
  | JVal.str s =>
    if trimJsWs s.data = [] then Except.ok none
    else
      match jsStringToNumber (String.mk (trimJsWs s.data)) with
      | JNum.fin q => Except.ok (some q)
      | _ => Except.error [field]
  | JVal.num n =>
    match n with
    | JNum.fin q => Except.ok (some q)
    | _ => Except.error [field]
  | JVal.bool b => Except.ok (some (if b then 1 else 0))

/-- Model of `zDateOpt` (src/unnamed/part_001 lines 117–122):
`preprocess(trim-empty to null, z.string().regex(YYYY-MM-DD).nullable()).optional()`. -/
def isIsoDateShape (l : List Char) : Bool :=
  match l with
  | [a, b, c, d, '-', e, f, '-', g, h] =>
    a.isDigit && b.isDigit && c.isDigit && d.isDigit &&
    e.isDigit && f.isDigit && g.isDigit && h.isDigit
  | _ => false

/-- Parse of a `zDateOpt` field; outer `some` marks key presence. -/
def zDateOptParse (field : String) : JVal → Except Issues (Option (Option String))
  | JVal.undefined => Except.ok none
  | JVal.null => Except.ok (some none)
  | JVal.str s =>
    if trimJsWs s.data = [] then Except.ok (some none)
    else if isIsoDateShape s.data then Except.ok (some (some s))
    else Except.error [field]
  | _ => Except.error [field]

/-- Model of `z.string().optional()` (update schema, src/unnamed/part_001
lines 164–166): absent stays absent, a string passes, anything else —
including `null` — is an issue. -/
def zOptStrParse (field : String) : JVal → Except Issues (Option String)
  | JVal.undefined => Except.ok none
  | JVal.str s => Except.ok (some s)
  | _ => Except.error [field]

/-- Model of `z.boolean().optional()` (update schema `terminado`,
src/unnamed/part_001 line 176). -/
def zOptBoolParse (field : String) : JVal → Except Issues (Option Bool)
  | JVal.undefined => Except.ok none
  | JVal.bool b => Except.ok (some b)
  | _ => Except.error [field]

/-- The issues of an `Except`-parse (empty when it succeeds). -/
def issuesOf {α : Type} : Except Issues α → Issues
  | Except.error e => e
  | Except.ok _ => []

/-- The parsed value of an `Except`-parse, with a default for the error case
(only read when the field has no issues). -/
def okVal {α : Type} (d : α) : Except Issues α → α
  | Except.ok a => a
  | Except.error _ => d

/-- Collapse zod's absent/null distinction for the create flow, where the
handler destructures with `= null` defaults (src/unnamed/part_001
lines 323–336). -/
def flatOpt {α : Type} : Option (Option α) → Option α
  | none => none
  | some x => x

/-- The result of `ProjectCreate.parse` (src/unnamed/part_001 lines 141–161)
after the handler's destructuring defaults. -/
structure CreateParsed where
  nombre : String
  pais : String
  consultor : String
  monto_oportunidad : ℚ
  numero_oportunidad : Option String
  client_name : Option String
  pm : Option String
  planned_hours : Option ℚ
  executed_hours : Option ℚ
  hourly_rate : Option ℚ
  start_date : Option String
  end_date : Option String
deriving DecidableEq, Repr

/-- All issues of `ProjectCreate.parse`, in schema shape order: zod reports
every failing field, not just the first. -/
def createIssues (raw : RawPayload) : Issues :=
  zReqStrIssues "nombre" raw.nombre ++
  zReqStrIssues "pais" raw.pais ++
  zReqStrIssues "consultor" raw.consultor ++
  zMontoIssues "monto_oportunidad" raw.monto_oportunidad ++
  issuesOf (zStrOptParse "numero_oportunidad" raw.numero_oportunidad) ++
  issuesOf (zStrOptParse "client_name" raw.client_name) ++
  issuesOf (zStrOptParse "pm" raw.pm) ++
  issuesOf (zNumNullParse "planned_hours" raw.planned_hours) ++
  issuesOf (zNumNullParse "executed_hours" raw.executed_hours) ++
  issuesOf (zNumNullParse "hourly_rate" raw.hourly_rate) ++
  issuesOf (zDateOptParse "start_date" raw.start_date) ++
  issuesOf (zDateOptParse "end_date" raw.end_date)

/-- Model of `ProjectCreate.parse` (src/unnamed/part_001 lines 141–161): a
`ZodError` carrying every failing field, or the parsed record. -/
def projectCreateParse (raw : RawPayload) : Except Issues CreateParsed :=
  if createIssues raw = [] then
    Except.ok
      { nombre := zReqStrVal raw.nombre
        pais := zReqStrVal raw.pais
        consultor := zReqStrVal raw.consultor
        monto_oportunidad := zMontoVal raw.monto_oportunidad
        numero_oportunidad := flatOpt (okVal none (zStrOptParse "numero_oportunidad" raw.numero_oportunidad))
        client_name := flatOpt (okVal none (zStrOptParse "client_name" raw.client_name))
        pm := flatOpt (okVal none (zStrOptParse "pm" raw.pm))
        planned_hours := okVal none (zNumNullParse "planned_hours" raw.planned_hours)
        executed_hours := okVal none (zNumNullParse "executed_hours" raw.executed_hours)
        hourly_rate := okVal none (zNumNullParse "hourly_rate" raw.hourly_rate)
        start_date := flatOpt (okVal none (zDateOptParse "start_date" raw.start_date))
        end_date := flatOpt (okVal none (zDateOptParse "end_date" raw.end_date)) }
  else Except.error (createIssues raw)

/-- Responses of the `POST /api/projects` handler of src/unnamed/part_001. -/
inductive CreateResp where
  | created (r : ProjectRow)
  | invalid (issues : Issues)
deriving DecidableEq, Repr

/-- The row inserted by `POST /api/projects` (src/unnamed/part_001 lines
338–363); `terminado` and `activo` take their column defaults and both
timestamps the insertion tick. -/
def rowOfCreate (id : String) (p : CreateParsed) (now : ℕ) : ProjectRow :=
  { id := id
    nombre := some p.nombre
    numero_oportunidad := p.numero_oportunidad
    pais := some p.pais
    consultor := some p.consultor
    monto_oportunidad := some p.monto_oportunidad
    client_name := p.client_name
    pm := p.pm
    planned_hours := p.planned_hours
    executed_hours := p.executed_hours
    hourly_rate := p.hourly_rate
    start_date := p.start_date
    end_date := p.end_date
    terminado := some false
    observaciones := none
    activo := some true
    created_at := now
    updated_at := now }

/-- Model of `POST /api/projects` (src/unnamed/part_001 lines 318–376): a
`ZodError` is answered with 400 and no query runs; otherwise the row is
inserted. -/
def postProjectHandler (store : List ProjectRow) (raw : RawPayload) (id : String)
    (now : ℕ) : CreateResp × List ProjectRow :=
  match projectCreateParse raw with
  | Except.error is => (CreateResp.invalid is, store)
  | Except.ok p => (CreateResp.created (rowOfCreate id p now), store ++ [rowOfCreate id p now])

/-- The result of `ProjectUpdate.parse` (src/unnamed/part_001 lines 163–177).
The outer `Option` of each field records whether the key is present in the
parsed object; the four `zNumNullable` fields are ALWAYS present because their
preprocessing maps a missing key to `null` and zod keeps any key whose parsed
value is not `undefined`. -/
structure UpdateParsed where
  nombre : Option String
  pais : Option String
  consultor : Option String
  monto_oportunidad : Option (Option ℚ)
  numero_oportunidad : Option (Option String)
  client_name : Option (Option String)
  pm : Option (Option String)
  planned_hours : Option (Option ℚ)
  executed_hours : Option (Option ℚ)
  hourly_rate : Option (Option ℚ)
  start_date : Option (Option String)
  end_date : Option (Option String)
  terminado : Option Bool
deriving DecidableEq, Repr

/-- All issues of `ProjectUpdate.parse`, in schema shape order. -/
def updateIssues (raw : RawPayload) : Issues :=
  issuesOf (zOptStrParse "nombre" raw.nombre) ++
  issuesOf (zOptStrParse "pais" raw.pais) ++
  issuesOf (zOptStrParse "consultor" raw.consultor) ++
  issuesOf (zNumNullParse "monto_oportunidad" raw.monto_oportunidad) ++
  issuesOf (zStrOptParse "numero_oportunidad" raw.numero_oportunidad) ++
  issuesOf (zStrOptParse "client_name" raw.client_name) ++
  issuesOf (zStrOptParse "pm" raw.pm) ++
  issuesOf (zNumNullParse "planned_hours" raw.planned_hours) ++
  issuesOf (zNumNullParse "executed_hours" raw.executed_hours) ++
  issuesOf (zNumNullParse "hourly_rate" raw.hourly_rate) ++
  issuesOf (zDateOptParse "start_date" raw.start_date) ++
  issuesOf (zDateOptParse "end_date" raw.end_date) ++
  issuesOf (zOptBoolParse "terminado" raw.terminado)

/-- Model of `ProjectUpdate.parse` (src/unnamed/part_001 lines 163–177). -/
def projectUpdateParse (raw : RawPayload) : Except Issues UpdateParsed :=
  if updateIssues raw = [] then
    Except.ok
      { nombre := okVal none (zOptStrParse "nombre" raw.nombre)
        pais := okVal none (zOptStrParse "pais" raw.pais)
        consultor := okVal none (zOptStrParse "consultor" raw.consultor)
        monto_oportunidad := some (okVal none (zNumNullParse "monto_oportunidad" raw.monto_oportunidad))
        numero_oportunidad := okVal none (zStrOptParse "numero_oportunidad" raw.numero_oportunidad)
        client_name := okVal none (zStrOptParse "client_name" raw.client_name)
        pm := okVal none (zStrOptParse "pm" raw.pm)
        planned_hours := some (okVal none (zNumNullParse "planned_hours" raw.planned_hours))
        executed_hours := some (okVal none (zNumNullParse "executed_hours" raw.executed_hours))
        hourly_rate := some (okVal none (zNumNullParse "hourly_rate" raw.hourly_rate))
        start_date := okVal none (zDateOptParse "start_date" raw.start_date)
        end_date := okVal none (zDateOptParse "end_date" raw.end_date)
        terminado := okVal none (zOptBoolParse "terminado" raw.terminado) }
  else Except.error (updateIssues raw)

/-- The keys present in the parsed update object, in shape order — this is the
`Object.keys(parsed)` list the handler builds its SET clause from
(src/unnamed/part_001 lines 286–297). -/
def parsedFields (u : UpdateParsed) : List String :=
  (if u.nombre.isSome then ["nombre"] else []) ++
  (if u.pais.isSome then ["pais"] else []) ++
  (if u.consultor.isSome then ["consultor"] else []) ++
  (if u.monto_oportunidad.isSome then ["monto_oportunidad"] else []) ++
  (if u.numero_oportunidad.isSome then ["numero_oportunidad"] else []) ++
  (if u.client_name.isSome then ["client_name"] else []) ++
  (if u.pm.isSome then ["pm"] else []) ++
  (if u.planned_hours.isSome then ["planned_hours"] else []) ++
  (if u.executed_hours.isSome then ["executed_hours"] else []) ++
  (if u.hourly_rate.isSome then ["hourly_rate"] else []) ++
  (if u.start_date.isSome then ["start_date"] else []) ++
  (if u.end_date.isSome then ["end_date"] else []) ++
  (if u.terminado.isSome then ["terminado"] else [])

/-- Apply the generated `UPDATE … SET f = $i, updated_at = NOW()` to the
matched row: each key present in the parsed object overwrites its column
(with SQL NULL when the parsed value is `null`). -/
def applyZodUpdate (u : UpdateParsed) (now : ℕ) (r : ProjectRow) : ProjectRow :=
  { r with
    nombre := match u.nombre with | some s => some s | none => r.nombre
    pais := match u.pais with | some s => some s | none => r.pais
    consultor := match u.consultor with | some s => some s | none => r.consultor
    monto_oportunidad := match u.monto_oportunidad with | some q => q | none => r.monto_oportunidad
    numero_oportunidad := match u.numero_oportunidad with | some s => s | none => r.numero_oportunidad
    client_name := match u.client_name with | some s => s | none => r.client_name
    pm := match u.pm with | some s => s | none => r.pm
    planned_hours := match u.planned_hours with | some q => q | none => r.planned_hours
    executed_hours := match u.executed_hours with | some q => q | none => r.executed_hours
    hourly_rate := match u.hourly_rate with | some q => q | none => r.hourly_rate
    start_date := match u.start_date with | some s => s | none => r.start_date
    end_date := match u.end_date with | some s => s | none => r.end_date
    terminado := match u.terminado with | some b => some b | none => r.terminado
    updated_at := now }

/-- Responses of the `PUT /api/projects/:id` handler of src/unnamed/part_001. -/
inductive UpdateResp where
  | ok
  | invalid (issues : Issues)
  | noFields
  | notFound
deriving DecidableEq, Repr

/-- Model of `PUT /api/projects/:id` (src/unnamed/part_001 lines 283–316):
parse the body, answer 400 when `Object.keys(parsed)` is empty ("No hay campos
para actualizar."), otherwise run the generated UPDATE and answer 404 when no
row matched. -/
def putProjectHandlerZod (store : List ProjectRow) (id : String) (raw : RawPayload)
    (now : ℕ) : UpdateResp × List ProjectRow :=
  match projectUpdateParse raw with
  | Except.error is => (UpdateResp.invalid is, store)
  | Except.ok u =>
    if parsedFields u = [] then (UpdateResp.noFields, store)
    else if store.any (fun r => r.id = id) then
      (UpdateResp.ok, store.map (fun r => if r.id = id then applyZodUpdate u now r else r))
    else (UpdateResp.notFound, store)

/-! ### Helper lemmas about the string model -/

theorem splitChar_ne_nil (c : Char) (l : List Char) : splitChar c l ≠ [] := by
  cases l with
  | nil => simp [splitChar]
  | cons a t =>
    simp only [splitChar]
    split
    · simp
    · split <;> simp

theorem splitChar_of_not_mem {c : Char} {l : List Char} (h : ∀ a ∈ l, a ≠ c) :
    splitChar c l = [l] := by
  induction l with
  | nil => rfl
  | cons a t ih =>
    have ha : a ≠ c := h a (List.mem_cons_self a t)
    have ht : ∀ x ∈ t, x ≠ c := fun x hx => h x (List.mem_cons_of_mem a hx)
    simp only [splitChar, if_neg ha, ih ht]

theorem splitChar_append {c : Char} (d rest : List Char) (h : ∀ a ∈ d, a ≠ c) :
    splitChar c (d ++ c :: rest) = d :: splitChar c rest := by
  induction d with
  | nil => simp [splitChar]
  | cons a d2 ih =>
    have ha : a ≠ c := h a (List.mem_cons_self a d2)
    have hd : ∀ x ∈ d2, x ≠ c := fun x hx => h x (List.mem_cons_of_mem a hx)
    simp only [List.cons_append, splitChar, if_neg ha, List.append_eq]
    rw [ih hd]


/-! ### C1 — archive / delete -/

/-- A stored project that is active and not finalized. -/
def unfinalizedRow : ProjectRow :=
  { id := "p1", nombre := some "Proyecto", pais := some "Chile",
    consultor := some "Ana", terminado := some false, activo := some true }

/-- C1: the claim says archiving a project with `finalized=false` fails with a
precondition error, leaves the record unchanged, and that records are never
physically deleted.  The endpoint `archiveProject` calls
(`DELETE /api/projects/:id`, src/unnamed/part_001 lines 454–463) instead
physically deletes the row with no precondition check: on a store holding one
non-finalized active project it answers ok and the row is gone. -/
theorem C1_delete_ignores_finalized :
  unfinalizedRow.terminado = some false ∧ unfinalizedRow.activo = some true ∧
  deleteProjectHandler [unfinalizedRow] "p1" = (DeleteResp.ok, []) := by decide

/-! ### C2 — partial update merge -/

/-- A stored project that is finalized and carries observations. -/
def preUpdateRow : ProjectRow :=
  { id := "p1", nombre := some "Viejo", pais := some "Chile",
    consultor := some "Ana", terminado := some true,
    observaciones := some "nota importante", activo := some true }

/-- C2 counterexample: the claim says every field omitted from a partial
update is unchanged, in particular the finalized flag and the observations.
Updating only `nombre` through `PUT /api/projects/:id` (src/server.mjs lines
325–373) resets `terminado` to false and `observaciones` to the empty string,
because `normalizeProjectPayload` defaults them (`?? false`, `?? ""`) and the
non-NULL parameters win the `COALESCE`. -/
theorem C2_put_overwrites_omitted_fields :
  preUpdateRow.terminado = some true ∧
  preUpdateRow.observaciones = some "nota importante" ∧
  (putProjectServer preUpdateRow { nombre := JVal.str "Nuevo" } 1).terminado = some false ∧
  (putProjectServer preUpdateRow { nombre := JVal.str "Nuevo" } 1).observaciones = some "" := by
  decide

/-- C2 amended: in the merge of `PUT /api/projects/:id` (src/server.mjs lines
325–373), every field omitted from the input is unchanged EXCEPT `terminado`,
which is reset to false, and `observaciones`, which is reset to the empty
string; a present string field is stored as sent, a present boolean
`terminado` is stored as sent, and `updated_at` is always refreshed. -/
theorem C2_partial_update_frame (r : ProjectRow) (raw : RawPayload) (now : ℕ) :
  (raw.nombre = JVal.undefined → raw.project_name = JVal.undefined →
     (putProjectServer r raw now).nombre = r.nombre) ∧
  (raw.numero_oportunidad = JVal.undefined → raw.numeroOportunidad = JVal.undefined →
     raw.opportunity_number = JVal.undefined →
     (putProjectServer r raw now).numero_oportunidad = r.numero_oportunidad) ∧
  (raw.pais = JVal.undefined → raw.country = JVal.undefined →
     (putProjectServer r raw now).pais = r.pais) ∧
  (raw.consultor = JVal.undefined → raw.consultant = JVal.undefined →
     (putProjectServer r raw now).consultor = r.consultor) ∧
  (raw.client_name = JVal.undefined → raw.cliente = JVal.undefined →
     raw.nombre_cliente = JVal.undefined → raw.nombreCliente = JVal.undefined →
     (putProjectServer r raw now).client_name = r.client_name) ∧
  (raw.pm = JVal.undefined → raw.pm_asignado = JVal.undefined →
     raw.pmAsignado = JVal.undefined → (putProjectServer r raw now).pm = r.pm) ∧
  (raw.planned_hours = JVal.undefined → raw.horas_planificadas = JVal.undefined →
     raw.horasPlanificadas = JVal.undefined →
     (putProjectServer r raw now).planned_hours = r.planned_hours) ∧
  (raw.executed_hours = JVal.undefined → raw.horas_ejecutadas = JVal.undefined →
     raw.horasEjecutadas = JVal.undefined →
     (putProjectServer r raw now).executed_hours = r.executed_hours) ∧
  (raw.hourly_rate = JVal.undefined → raw.valor_hora = JVal.undefined →
     raw.valorHora = JVal.undefined →
     (putProjectServer r raw now).hourly_rate = r.hourly_rate) ∧
  (raw.monto_oportunidad = JVal.undefined → raw.montoOportunidad = JVal.undefined →
     raw.monto = JVal.undefined →
     (putProjectServer r raw now).monto_oportunidad = r.monto_oportunidad) ∧
  (raw.start_date = JVal.undefined → raw.fecha_inicio = JVal.undefined →
     raw.fechaInicio = JVal.undefined →
     (putProjectServer r raw now).start_date = r.start_date) ∧
  (raw.end_date = JVal.undefined → raw.fecha_fin = JVal.undefined →
     raw.fechaFin = JVal.undefined →
     (putProjectServer r raw now).end_date = r.end_date) ∧
  (raw.activo = JVal.undefined → (putProjectServer r raw now).activo = r.activo) ∧
  (raw.terminado = JVal.undefined → raw.finalizado = JVal.undefined →
     (putProjectServer r raw now).terminado = some false) ∧
  (raw.observaciones = JVal.undefined →
     (putProjectServer r raw now).observaciones = some "") ∧
  (∀ s, raw.nombre = JVal.str s → (putProjectServer r raw now).nombre = some s) ∧
  (∀ b, raw.terminado = JVal.bool b → (putProjectServer r raw now).terminado = some b) ∧
  (putProjectServer r raw now).updated_at = now := by
  refine ⟨?_, ?_, ?_, ?_, ?_, ?_, ?_, ?_, ?_, ?_, ?_, ?_, ?_, ?_, ?_, ?_, ?_, ?_⟩
  all_goals intros
  all_goals simp only [putProjectServer, normalizeProjectPayload, *]
  all_goals rfl

/-- Witness for `C2_partial_update_frame` at a concrete row, payload and tick. -/
theorem C2_partial_update_frame_witness :
  (putProjectServer preUpdateRow { nombre := JVal.str "Nuevo" } 1).pais = preUpdateRow.pais :=
  (C2_partial_update_frame preUpdateRow { nombre := JVal.str "Nuevo" } 1).2.2.1 rfl rfl

/-! ### C3 — comma decimal separator -/

/-- String construction commutes with `data` (definitional). -/
theorem data_mk (l : List Char) : (String.mk l).data = l := rfl

/-- A string whose JS coercion is a finite number is normalized to that
number by `toNumOrNull`, provided it is not the empty string. -/
theorem toNumOrNull_str_eq (s : String) (q : ℚ) (h : jsStringToNumber s = JNum.fin q)
    (hs : s ≠ "") : toNumOrNull (JVal.str s) = some (JNum.fin q) := by
  have hg : ¬(JVal.str s = JVal.null ∨ JVal.str s = JVal.undefined ∨
      JVal.str s = JVal.str "") := by simp [hs]
  simp only [toNumOrNull, if_neg hg, jsToNumber, h, JNum.isFinite, if_true]

/-- C3 counterexample: the claim says the normalization layer treats a comma
as decimal separator, so that `"50,5"` normalizes to the number 50.5, for
every numeric field.  In `normalizeProjectPayload` (src/server.mjs lines
62–66 and 108–109) the coercion is plain `Number(v)`, so `"50,5"` is NaN and
is normalized to SQL NULL, while the period form is kept. -/
theorem C3_comma_not_parsed_by_server :
  (normalizeProjectPayload { hourly_rate := JVal.str "50,5" }).hourly_rate = none ∧
  (normalizeProjectPayload { hourly_rate := JVal.str "50.5" }).hourly_rate ≠ none := by
  constructor
  · decide
  · decide

/-- C3 amended: the server normalizer `toNumOrNull` parses the period form
(`"1234.56"` to 1234.56) but maps the comma form `"50,5"` to null; the
comma-as-decimal-separator tolerance exists only in the visit edit dialog's
conversion `Number(String(x).replace(",", "."))`
(src/src/components/VisitCard.tsx lines 78–87), where `"50,5"` and `"50.5"`
both yield 50.5. -/
theorem C3_comma_handling_amended :
  toNumOrNull (JVal.str "1234.56") = some (JNum.fin (123456 / 100)) ∧
  toNumOrNull (JVal.str "50,5") = none ∧
  visitCardToNumber "50,5" = JNum.fin (101 / 2) ∧
  visitCardToNumber "50.5" = JNum.fin (101 / 2) := by
  have h505 : jsStringToNumber "50.5" = JNum.fin (101 / 2) := by
    have hp : scanNumLiteral "50.5" = NumParse.decP false "50".data "5".data 0 := by decide
    have hd : digitsToNat ("50".data ++ "5".data) = 505 := by decide
    have hval : decToRat false "50".data "5".data 0 = 101 / 2 := by
      simp only [decToRat, hd]
      norm_num
    rw [jsStringToNumber, hp]
    exact congrArg JNum.fin hval
  have hrep : String.mk (replaceFirstComma "50,5".data) = "50.5" := by decide
  refine ⟨?_, by decide, ?_, ?_⟩
  · have hp : scanNumLiteral "1234.56" = NumParse.decP false "1234".data "56".data 0 := by
      decide
    have hd : digitsToNat ("1234".data ++ "56".data) = 123456 := by decide
    have hval : decToRat false "1234".data "56".data 0 = 123456 / 100 := by
      simp only [decToRat, hd]
      norm_num
    exact toNumOrNull_str_eq _ _
      (by rw [jsStringToNumber, hp]; exact congrArg JNum.fin hval) (by decide)
  · rw [visitCardToNumber, hrep, h505]
  · have hrep2 : String.mk (replaceFirstComma "50.5".data) = "50.5" := by decide
    rw [visitCardToNumber, hrep2, h505]

/-! ### C4 — date normalization -/

/-- C4: `toIsoDateOrNull` (src/server.mjs lines 67–74) maps every slash date
`d/m/y` (components free of `/`) to `y-m-d` with day and month zero-padded to
two characters; `"05/03/2024"` and `"5/3/2024"` both map to `"2024-03-05"`; a
nonempty string without `/` — in particular a `YYYY-MM-DD` date — passes
through unchanged; empty, null and absent input map to null. -/
theorem C4_toIsoDateOrNull_spec :
  (∀ d m y : List Char, (∀ a ∈ d, a ≠ '/') → (∀ a ∈ m, a ≠ '/') → (∀ a ∈ y, a ≠ '/') →
     toIsoDateOrNull (JVal.str (String.mk (d ++ '/' :: (m ++ '/' :: y)))) =
       JVal.str (String.mk y ++ "-" ++ padStart2 (String.mk m) ++ "-" ++ padStart2 (String.mk d))) ∧
  toIsoDateOrNull (JVal.str "05/03/2024") = JVal.str "2024-03-05" ∧
  toIsoDateOrNull (JVal.str "5/3/2024") = JVal.str "2024-03-05" ∧
  (∀ s : String, s ≠ "" → (∀ a ∈ s.data, a ≠ '/') →
     toIsoDateOrNull (JVal.str s) = JVal.str s) ∧
  toIsoDateOrNull (JVal.str "") = JVal.null ∧
  toIsoDateOrNull JVal.undefined = JVal.null ∧
  toIsoDateOrNull JVal.null = JVal.null := by
  refine ⟨?_, by decide, by decide, ?_, by decide, by decide, by decide⟩
  · intro d m y hd hm hy
    have hsplit : splitChar '/' (d ++ '/' :: (m ++ '/' :: y)) = [d, m, y] := by
      rw [splitChar_append d _ hd, splitChar_append m _ hm, splitChar_of_not_mem hy]
    have hfal : jsFalsy (JVal.str (String.mk (d ++ '/' :: (m ++ '/' :: y)))) = false := by
      simp [jsFalsy, data_mk]
    have hcon : containsChar (String.mk (d ++ '/' :: (m ++ '/' :: y))) '/' = true := by
      simp [containsChar, data_mk]
    simp only [toIsoDateOrNull, hfal, Bool.false_eq_true, if_false, hcon, if_true,
      data_mk, hsplit]
    simp
  · intro s hs hs2
    have hd : s.data ≠ [] := by
      intro h
      apply hs
      cases s with
      | mk l =>
        simp only [data_mk] at h
        rw [h]
    have hfal : jsFalsy (JVal.str s) = false := by
      simp [jsFalsy, List.isEmpty_iff, hd]
    have hcon : containsChar s '/' = false := by
      simp only [containsChar, decide_eq_false_iff_not]
      exact fun h => hs2 '/' h rfl
    simp only [toIsoDateOrNull, hfal, Bool.false_eq_true, if_false, hcon]

/-- Witness for `C4_toIsoDateOrNull_spec` on the slash date `7/9/2023` and on
the pass-through of `2023-09-07`. -/
theorem C4_toIsoDateOrNull_witness :
  toIsoDateOrNull (JVal.str (String.mk ("7".data ++ '/' :: ("9".data ++ '/' :: "2023".data)))) =
    JVal.str (String.mk "2023".data ++ "-" ++ padStart2 (String.mk "9".data) ++ "-" ++
      padStart2 (String.mk "7".data)) ∧
  toIsoDateOrNull (JVal.str "2023-09-07") = JVal.str "2023-09-07" :=
  ⟨C4_toIsoDateOrNull_spec.1 "7".data "9".data "2023".data (by decide) (by decide) (by decide),
   C4_toIsoDateOrNull_spec.2.2.2.1 "2023-09-07" (by decide) (by decide)⟩

/-! ### C5 — numeric normalization never yields NaN -/

/-- C5: every numeric field normalization yields SQL NULL or a finite number
(`toNumOrNull`, src/server.mjs lines 62–66, also applied to the four numeric
fields of `normalizeProjectPayload`), and `zNumberOrDefault`
(src/unnamed/part_001 lines 124–138) always yields a finite number; NaN never
reaches a storage write. -/
theorem C5_numeric_normalization_no_nan :
  (∀ v : JVal, toNumOrNull v = none ∨ ∃ q : ℚ, toNumOrNull v = some (JNum.fin q)) ∧
  (∀ d : ℚ, ∀ v : JVal, ∃ q : ℚ, zNumberOrDefault d v = JNum.fin q) ∧
  (∀ raw : RawPayload,
    ((normalizeProjectPayload raw).planned_hours = none ∨
       ∃ q : ℚ, (normalizeProjectPayload raw).planned_hours = some (JNum.fin q)) ∧
    ((normalizeProjectPayload raw).executed_hours = none ∨
       ∃ q : ℚ, (normalizeProjectPayload raw).executed_hours = some (JNum.fin q)) ∧
    ((normalizeProjectPayload raw).hourly_rate = none ∨
       ∃ q : ℚ, (normalizeProjectPayload raw).hourly_rate = some (JNum.fin q)) ∧
    ((normalizeProjectPayload raw).monto_oportunidad = none ∨
       ∃ q : ℚ, (normalizeProjectPayload raw).monto_oportunidad = some (JNum.fin q))) := by
  have h1 : ∀ v : JVal, toNumOrNull v = none ∨ ∃ q : ℚ, toNumOrNull v = some (JNum.fin q) := by
    intro v
    by_cases hg : v = JVal.null ∨ v = JVal.undefined ∨ v = JVal.str ""
    · left
      simp [toNumOrNull, hg]
    · cases h : jsToNumber v with
      | nan => left; simp [toNumOrNull, if_neg hg, h, JNum.isFinite]
      | inf p => left; simp [toNumOrNull, if_neg hg, h, JNum.isFinite]
      | fin q => right; exact ⟨q, by simp [toNumOrNull, if_neg hg, h, JNum.isFinite]⟩
  refine ⟨h1, ?_, ?_⟩
  · intro d v
    cases v with
    | null => exact ⟨d, rfl⟩
    | undefined => exact ⟨d, rfl⟩
    | bool b => exact ⟨d, rfl⟩
    | num n =>
      cases n with
      | fin q => exact ⟨q, rfl⟩
      | nan => exact ⟨d, rfl⟩
      | inf p => exact ⟨d, rfl⟩
    | str s =>
      simp only [zNumberOrDefault]
      split
      · exact ⟨d, rfl⟩
      · cases h : jsStringToNumber (String.mk ((trimJsWs s.data).map Char.toLower)) with
        | fin q => exact ⟨q, rfl⟩
        | nan => exact ⟨d, rfl⟩
        | inf p => exact ⟨d, rfl⟩
  · intro raw
    exact ⟨h1 _, h1 _, h1 _, h1 _⟩

/-! ### C6 — required fields on create -/

/-- C6: `ProjectCreate.parse` (src/unnamed/part_001 lines 141–161) rejects a
create whose `pais` is missing or empty with a validation error naming `pais`,
and the handler (lines 318–376) persists nothing; likewise for `nombre` and
`consultor`. -/
theorem C6_create_missing_required (store : List ProjectRow) (raw : RawPayload)
    (id : String) (now : ℕ) :
  ((raw.pais = JVal.undefined ∨ raw.pais = JVal.str "") →
     ∃ is, projectCreateParse raw = Except.error is ∧ "pais" ∈ is ∧
       postProjectHandler store raw id now = (CreateResp.invalid is, store)) ∧
  ((raw.nombre = JVal.undefined ∨ raw.nombre = JVal.str "") →
     ∃ is, projectCreateParse raw = Except.error is ∧ "nombre" ∈ is ∧
       postProjectHandler store raw id now = (CreateResp.invalid is, store)) ∧
  ((raw.consultor = JVal.undefined ∨ raw.consultor = JVal.str "") →
     ∃ is, projectCreateParse raw = Except.error is ∧ "consultor" ∈ is ∧
       postProjectHandler store raw id now = (CreateResp.invalid is, store)) := by
  refine ⟨?_, ?_, ?_⟩
  · intro h
    have hp : zReqStrIssues "pais" raw.pais = ["pais"] := by
      rcases h with h | h <;> rw [h] <;> decide
    have hmem : "pais" ∈ createIssues raw := by
      simp [createIssues, hp]
    have hne : ¬ createIssues raw = [] := by
      intro he
      rw [he] at hmem
      exact List.not_mem_nil _ hmem
    have hpc : projectCreateParse raw = Except.error (createIssues raw) := by
      simp [projectCreateParse, hne]
    exact ⟨createIssues raw, hpc, hmem, by simp [postProjectHandler, hpc]⟩
  · intro h
    have hp : zReqStrIssues "nombre" raw.nombre = ["nombre"] := by
      rcases h with h | h <;> rw [h] <;> decide
    have hmem : "nombre" ∈ createIssues raw := by
      simp [createIssues, hp]
    have hne : ¬ createIssues raw = [] := by
      intro he
      rw [he] at hmem
      exact List.not_mem_nil _ hmem
    have hpc : projectCreateParse raw = Except.error (createIssues raw) := by
      simp [projectCreateParse, hne]
    exact ⟨createIssues raw, hpc, hmem, by simp [postProjectHandler, hpc]⟩
  · intro h
    have hp : zReqStrIssues "consultor" raw.consultor = ["consultor"] := by
      rcases h with h | h <;> rw [h] <;> decide
    have hmem : "consultor" ∈ createIssues raw := by
      simp [createIssues, hp]
    have hne : ¬ createIssues raw = [] := by
      intro he
      rw [he] at hmem
      exact List.not_mem_nil _ hmem
    have hpc : projectCreateParse raw = Except.error (createIssues raw) := by
      simp [projectCreateParse, hne]
    exact ⟨createIssues raw, hpc, hmem, by simp [postProjectHandler, hpc]⟩

/-- A create payload with name and consultant but no country. -/
def rawMissingPais : RawPayload :=
  { nombre := JVal.str "Cloud Migration", consultor := JVal.str "Ana" }

/-- Witness for `C6_create_missing_required` on a concrete payload. -/
theorem C6_create_missing_required_witness :
  ∃ is, projectCreateParse rawMissingPais = Except.error is ∧ "pais" ∈ is ∧
    postProjectHandler [] rawMissingPais "p9" 0 = (CreateResp.invalid is, []) :=
  (C6_create_missing_required [] rawMissingPais "p9" 0).1 (Or.inl rfl)

/-! ### C7 — no-op update rejection -/

/-- A fully populated stored project. -/
def finalizedRow : ProjectRow :=
  { id := "p1", nombre := some "Proyecto", pais := some "Chile",
    consultor := some "Ana", monto_oportunidad := some 1000,
    planned_hours := some 40, executed_hours := some 10, hourly_rate := some 50,
    terminado := some true, activo := some true, created_at := 2, updated_at := 2 }

/-- C7: the claim says an update with no field present is rejected as a no-op
and mutates nothing.  The handler (src/unnamed/part_001 lines 283–316) does
contain that rejection ("No hay campos para actualizar."), but
`ProjectUpdate.parse({})` always yields the four `zNumNullable` keys with
value `null`, so an empty body passes the check, sets `monto_oportunidad`,
`planned_hours`, `executed_hours` and `hourly_rate` to SQL NULL and refreshes
`updated_at`. -/
theorem C7_empty_update_not_rejected :
  putProjectHandlerZod [finalizedRow] "p1" {} 7 =
    (UpdateResp.ok,
     [{ finalizedRow with
          monto_oportunidad := none
          planned_hours := none
          executed_hours := none
          hourly_rate := none
          updated_at := 7 }]) := by decide

/-! ### C8 — active/archived listing -/

/-- A stored active, unfinished project. -/
def activeRow : ProjectRow := { id := "a", activo := some true, terminado := some false }

/-- A stored archived project. -/
def archivedRow : ProjectRow := { id := "b", activo := some false, terminado := some true }

/-- C8 counterexample: the claim says the listing returns exactly the records
whose active flag matches the requested status (default active), the archived
listing never containing an `active=true` record.  `GET /api/projects`
(src/server.mjs lines 224–269) filters only for the literal status `active`;
for `archived` — and for an absent status — it returns every record, so the
archived listing contains an `activo=true` row and the default listing is not
the active one. -/
theorem C8_archived_listing_contains_active :
  activeRow.activo = some true ∧
  activeRow ∈ listProjects [activeRow, archivedRow] (some "archived") ∧
  listProjects [activeRow, archivedRow] none = [activeRow, archivedRow] := by decide

/-- C8 amended: `status=active` returns exactly the records with
`COALESCE(activo,true)=true` and `COALESCE(terminado,false)=false`; any other
status value, including an absent one and `archived`, returns all records
unfiltered — the two listings do not partition the table. -/
theorem C8_listing_amended (store : List ProjectRow) (status : Option String)
    (r : ProjectRow) :
  (r ∈ listProjects store (some "active") ↔
     r ∈ store ∧ r.activo.getD true = true ∧ r.terminado.getD false = false) ∧
  (status ≠ some "active" → listProjects store status = store) := by
  constructor
  · simp [listProjects, List.mem_filter, Bool.and_eq_true, Bool.not_eq_true', and_assoc]
  · intro h
    simp [listProjects, h]

/-- Witness for `C8_listing_amended`: the archived listing of a mixed store is
the whole store. -/
theorem C8_listing_amended_witness :
  listProjects [activeRow, archivedRow] (some "archived") = [activeRow, archivedRow] :=
  (C8_listing_amended [activeRow, archivedRow] (some "archived") activeRow).2 (by decide)

/-! ### C9 — alias resolution order -/

/-- C9 counterexample: the claim says the first non-undefined alias wins, so a
canonical key holding `null` should resolve to `null` even when a later alias
is non-null.  The `??` chains of `normalizeProjectPayload` (src/server.mjs
lines 75–129) skip `null` too: with `numero_oportunidad: null` and
`numeroOportunidad: "OP-7"` the resolved value is `"OP-7"`. -/
theorem C9_null_does_not_win :
  (normalizeProjectPayload
     { numero_oportunidad := JVal.null,
       numeroOportunidad := JVal.str "OP-7" }).numero_oportunidad = JVal.str "OP-7" := by
  decide

/-- C9 amended: alias resolution picks the first alias, in the fixed source
order, whose value is neither `undefined` nor `null` (JS `??`); when every
alias is nullish the field resolves to `null`.  Shown for the three-alias
chain of `numero_oportunidad` and the two-alias chain of `pais`. -/
theorem C9_alias_resolution_amended (raw : RawPayload) :
  (jsNullish raw.numero_oportunidad = false →
     (normalizeProjectPayload raw).numero_oportunidad = raw.numero_oportunidad) ∧
  (jsNullish raw.numero_oportunidad = true → jsNullish raw.numeroOportunidad = false →
     (normalizeProjectPayload raw).numero_oportunidad = raw.numeroOportunidad) ∧
  (jsNullish raw.numero_oportunidad = true → jsNullish raw.numeroOportunidad = true →
     jsNullish raw.opportunity_number = false →
     (normalizeProjectPayload raw).numero_oportunidad = raw.opportunity_number) ∧
  (jsNullish raw.numero_oportunidad = true → jsNullish raw.numeroOportunidad = true →
     jsNullish raw.opportunity_number = true →
     (normalizeProjectPayload raw).numero_oportunidad = JVal.null) ∧
  (jsNullish raw.pais = false → (normalizeProjectPayload raw).pais = raw.pais) ∧
  (jsNullish raw.pais = true → jsNullish raw.country = false →
     (normalizeProjectPayload raw).pais = raw.country) ∧
  (jsNullish raw.pais = true → jsNullish raw.country = true →
     (normalizeProjectPayload raw).pais = JVal.null) := by
  refine ⟨?_, ?_, ?_, ?_, ?_, ?_, ?_⟩
  all_goals intros
  all_goals simp_all [normalizeProjectPayload, nullishOr]

/-- Witness for `C9_alias_resolution_amended`: the camelCase alias is used
when the canonical key is absent. -/
theorem C9_alias_resolution_amended_witness :
  (normalizeProjectPayload { numeroOportunidad := JVal.str "OP-9" }).numero_oportunidad
    = JVal.str "OP-9" :=
  (C9_alias_resolution_amended { numeroOportunidad := JVal.str "OP-9" }).2.1 rfl rfl

/-! ### C10 — whitespace-only numeric input -/

/-- C10: `toNumOrNull` (src/server.mjs lines 62–66) guards only against the
exactly-empty string, and JS `Number` of a whitespace-only string is 0, so a
nonempty all-whitespace string normalizes to the number 0, not to null. -/
theorem C10_whitespace_string_is_zero (s : String) (h1 : s ≠ "")
    (h2 : ∀ c ∈ s.data, isJsWs c = true) :
    toNumOrNull (JVal.str s) = some (JNum.fin 0) := by
  have hg : ¬(JVal.str s = JVal.null ∨ JVal.str s = JVal.undefined ∨
      JVal.str s = JVal.str "") := by simp [h1]
  have htrim : trimJsWs s.data = [] := by
    have hw : s.data.dropWhile isJsWs = [] := List.dropWhile_eq_nil_iff.mpr h2
    simp [trimJsWs, hw]
  have hscan : scanNumLiteral s = NumParse.zeroP := by
    simp [scanNumLiteral, htrim]
  have hjs : jsStringToNumber s = JNum.fin 0 := by
    simp [jsStringToNumber, hscan]
  simp only [toNumOrNull, if_neg hg, jsToNumber, hjs, JNum.isFinite, if_true]

/-- Witness for `C10_whitespace_string_is_zero` on the single-space string. -/
theorem C10_whitespace_string_is_zero_witness :
  toNumOrNull (JVal.str " ") = some (JNum.fin 0) :=
  C10_whitespace_string_is_zero " " (by decide) (by decide)
